import Mathlib

/-!
Verification development for the OCPI EMSP/CPO platform scaffold.

The Python source keeps its state in string-keyed dictionaries
(`EMSPCrud._storage`) and in two in-memory token lists
(`ClientAuthenticator._valid_tokens_a` / `_valid_tokens_c`).  We embed the
relevant operations shallowly: Python dicts become association lists in which
each key occurs at most once (assignment replaces the first occurrence, a new
key is appended at the end, exactly like insertion-ordered Python dicts),
`datetime.now(...)` timestamps and `uuid.uuid4()` values become explicit
string parameters, and `raise NotFoundOCPIError` becomes `Except.error`.
-/

namespace OCPIEmsp

/-- A Python `dict` with string keys, modelled as an association list.
All dictionaries built by the embedded operations hold each key at most
once, mirroring real Python dicts. -/
abbrev Dict (α : Type) : Type := List (String × α)

/-- Python `d.get(k)` / `d[k]` lookup: the value at the first occurrence of
key `k`, if any. -/
def dget {α : Type} : Dict α → String → Option α
  | [], _ => none
  | p :: ds, k => if p.1 = k then some p.2 else dget ds k

/-- Python `d[k] = v` assignment: replace the (unique) binding of `k` if it
exists, otherwise append `(k, v)` at the end, preserving insertion order. -/
def dset {α : Type} : Dict α → String → α → Dict α
  | [], k, v => [(k, v)]
  | p :: ds, k, v => if p.1 = k then (k, v) :: ds else p :: dset ds k v

/-- Python `d.values()` in insertion order. -/
def dvalues {α : Type} (d : Dict α) : List α := d.map (fun p => p.2)

/-- A stored OCPI module object: a Python dict with opaque string payloads. -/
abbrev Obj := Dict String

/-- Python `existing.update(data)`: write every binding of `data`, in order,
into `existing` (supplied fields overwrite, others are kept). -/
def dictUpdate (existing data : Obj) : Obj :=
  data.foldl (fun acc p => dset acc p.1 p.2) existing

theorem dget_dset_same {α : Type} (d : Dict α) (k : String) (v : α) :
    dget (dset d k v) k = some v := by
  induction d with
  | nil => simp [dget, dset]
  | cons p ds ih =>
    by_cases h : p.1 = k
    · simp [dget, dset, h]
    · simp [dget, dset, h, ih]

theorem dget_dset_ne {α : Type} (d : Dict α) (k k' : String) (v : α)
    (h : ¬ k' = k) : dget (dset d k' v) k = dget d k := by
  induction d with
  | nil => simp [dget, dset, h]
  | cons p ds ih =>
    by_cases hp : p.1 = k'
    · have hpk : ¬ p.1 = k := fun hk => h (hp.symm.trans hk)
      simp only [dset, if_pos hp, dget, if_neg h, if_neg hpk]
    · simp only [dset, if_neg hp, dget]
      by_cases hk : p.1 = k
      · simp [if_pos hk]
      · simp [if_neg hk, ih]

theorem dget_dictUpdate_none (existing data : Obj) (k : String)
    (h : dget data k = none) :
    dget (dictUpdate existing data) k = dget existing k := by
  induction data generalizing existing with
  | nil => rfl
  | cons p ds ih =>
    have hp : ¬ p.1 = k := by
      intro hk
      simp [dget, hk] at h
    have hds : dget ds k = none := by
      simpa [dget, hp] using h
    have : dictUpdate existing (p :: ds) = dictUpdate (dset existing p.1 p.2) ds := rfl
    rw [this, ih (dset existing p.1 p.2) hds, dget_dset_ne existing k p.1 p.2 hp]

/-- The mutable state of `ClientAuthenticator`: the two class-level token
lists `_valid_tokens_a` and `_valid_tokens_c` (src/core/auth.py). -/
structure AuthState where
  tokensA : List String
  tokensC : List String
deriving DecidableEq, Repr

/-- The hard-coded development token lists of `ClientAuthenticator`. -/
def initialAuthState : AuthState :=
  { tokensA := ["emsp_token_a_12345", "emsp_token_a_67890",
                "emsp_development_token_a"]
    tokensC := ["cpo_token_c_abcdef", "cpo_token_c_ghijkl",
                "cpo_development_token_c", "test_token_c_123"] }

/-- Token classification reported by `get_token_info` (its `"type"` field). -/
inductive TokenClass where
  | TOKEN_A
  | TOKEN_C
  | UNKNOWN
deriving DecidableEq, Repr

/-- The dictionary returned by `ClientAuthenticator.get_token_info`. -/
structure TokenInfo where
  tokenType : TokenClass
  valid : Bool
  description : String
deriving DecidableEq, Repr

namespace ClientAuthenticator

/-- `ClientAuthenticator.add_token_a` (src/core/auth.py:85): appends `token`
to `_valid_tokens_a` unless already present; the Python method returns
`None`, modelled as `Unit`. -/
def add_token_a (s : AuthState) (token : String) : AuthState × Unit :=
  if s.tokensA.contains token then (s, ())
  else ({ s with tokensA := s.tokensA ++ [token] }, ())

/-- `ClientAuthenticator.add_token_c` (src/core/auth.py:99): appends `token`
to `_valid_tokens_c` unless already present; returns `None` (`Unit`). -/
def add_token_c (s : AuthState) (token : String) : AuthState × Unit :=
  if s.tokensC.contains token then (s, ())
  else ({ s with tokensC := s.tokensC ++ [token] }, ())

/-- `ClientAuthenticator.remove_token_a` (src/core/auth.py:113): removes the
token from `_valid_tokens_a` if present; returns whether it was removed. -/
def remove_token_a (s : AuthState) (token : String) : AuthState × Bool :=
  if s.tokensA.contains token then
    ({ s with tokensA := s.tokensA.erase token }, true)
  else (s, false)

/-- `ClientAuthenticator.remove_token_c` (src/core/auth.py:132). -/
def remove_token_c (s : AuthState) (token : String) : AuthState × Bool :=
  if s.tokensC.contains token then
    ({ s with tokensC := s.tokensC.erase token }, true)
  else (s, false)

/-- `ClientAuthenticator.is_token_valid` (src/core/auth.py:151): `False` for
a `None` token, otherwise membership in either token list.  The Python
`token: str` argument that may be `None` is modelled as `Option String`. -/
def is_token_valid (s : AuthState) (token : Option String) : Bool :=
  match token with
  | none => false
  | some t => s.tokensA.contains t || s.tokensC.contains t

/-- `ClientAuthenticator.get_token_info` (src/core/auth.py:180): checks the
Token-A list first, then the Token-C list, else reports `UNKNOWN`; total,
never raises. -/
def get_token_info (s : AuthState) (token : String) : TokenInfo :=
  if s.tokensA.contains token then
    { tokenType := TokenClass.TOKEN_A, valid := true,
      description := "EMSP authentication token for CPO systems" }
  else if s.tokensC.contains token then
    { tokenType := TokenClass.TOKEN_C, valid := true,
      description := "CPO authentication token for EMSP system" }
  else
    { tokenType := TokenClass.UNKNOWN, valid := false,
      description := "Invalid or unknown token" }

end ClientAuthenticator

theorem contains_append_singleton (l : List String) (t : String) :
    (l ++ [t]).contains t = true := by
  induction l with
  | nil => simp [List.contains]
  | cons a as ih => simp [List.contains] at ih ⊢

/-- The OCPI modules served by `EMSPCrud` (the keys of `_storage` in
src/core/crud.py and the `ModuleID` values mapped by `_get_storage_key`). -/
inductive ModuleID where
  | locations
  | sessions
  | cdrs
  | tariffs
  | commands
  | tokens
  | hub_client_info
  | charging_profile
  | credentials_and_registration
deriving DecidableEq, Repr

/-- `EMSPCrud._get_storage_key` (src/core/crud.py:291): maps a module to
its key in `_storage`. -/
def get_storage_key : ModuleID → String
  | ModuleID.locations => "locations"
  | ModuleID.sessions => "sessions"
  | ModuleID.cdrs => "cdrs"
  | ModuleID.tariffs => "tariffs"
  | ModuleID.commands => "commands"
  | ModuleID.tokens => "tokens"
  | ModuleID.hub_client_info => "hub_client_info"
  | ModuleID.charging_profile => "charging_profiles"
  | ModuleID.credentials_and_registration => "credentials"

/-- One module's store: object id mapped to the stored dict. -/
abbrev Store := Dict Obj

/-- `EMSPCrud._storage`: storage key mapped to that module's store. -/
abbrev Storage := Dict Store

/-- The initial `_storage` dictionary: all nine module keys, each empty. -/
def initialStorage : Storage :=
  [("locations", []), ("sessions", []), ("cdrs", []), ("tariffs", []),
   ("commands", []), ("tokens", []), ("hub_client_info", []),
   ("charging_profiles", []), ("credentials", [])]

/-- Python `cls._storage[storage_key]`.  Every storage key produced by
`get_storage_key` is present in `initialStorage` and assignment preserves
keys, so the `[]` default is never hit on reachable states. -/
def storeOf (st : Storage) (key : String) : Store :=
  (dget st key).getD []

/-- The only exception raised by the embedded CRUD operations. -/
inductive OcpiError where
  | NotFoundOCPIError
deriving DecidableEq, Repr

/-- The OCPI pagination/date filters dict passed to `EMSPCrud.list`;
`none` fields model absent dictionary keys. -/
structure Filters where
  offset : Option Nat
  limit : Option Nat
  date_from : Option String
  date_to : Option String
deriving DecidableEq, Repr

/-- A JSON-like value, for the heterogeneous dicts returned by
`EMSPCrud.do`. -/
inductive JVal where
  | jstr : String → JVal
  | jnat : Nat → JVal
  | jnull : JVal
  | jobj : List (String × JVal) → JVal

/-- The fields of a `JVal.jobj` (empty for non-objects). -/
def jfields : JVal → List (String × JVal)
  | JVal.jobj fs => fs
  | _ => []

/-- Field lookup on a `JVal` object. -/
def jget (j : JVal) (k : String) : Option JVal :=
  ((jfields j).find? (fun p => p.1 == k)).map (fun p => p.2)

/-- The `py_ocpi` `Action` values dispatched by `EMSPCrud.do`
(src/core/crud.py:246-288); `other_action` stands for any further enum
member, which falls into the final `else` branch. -/
inductive Action where
  | get_client_token
  | authorize_token
  | send_command
  | send_get_chargingprofile
  | send_delete_chargingprofile
  | send_update_charging_profile
  | other_action
deriving DecidableEq, Repr

/-- The string value of the external `py_ocpi` `Action` enum member, used
only inside log/`message` strings; opaque to every claim. -/
def Action.value : Action → String
  | Action.get_client_token => "GetClientToken"
  | Action.authorize_token => "AuthorizeToken"
  | Action.send_command => "SendCommand"
  | Action.send_get_chargingprofile => "SendGetChargingProfile"
  | Action.send_delete_chargingprofile => "SendDeleteChargingProfile"
  | Action.send_update_charging_profile => "SendUpdateChargingProfile"
  | Action.other_action => "OtherAction"

namespace EMSPCrud

/-- `EMSPCrud.get` (src/core/crud.py:52): raises `NotFoundOCPIError` when
the id is absent, otherwise returns the stored dict. -/
def get (st : Storage) (module : ModuleID) (id : String) :
    Except OcpiError Obj :=
  let store := storeOf st (get_storage_key module)
  match dget store id with
  | none => Except.error OcpiError.NotFoundOCPIError
  | some data => Except.ok data

/-- `EMSPCrud.list` (src/core/crud.py:82): offset/limit pagination over the
insertion-ordered values of the module's store.  `filters.get("offset", 0)`
and `filters.get("limit", 50)` become `getD`; the Python slice
`all_objects[start_idx:end_idx]` becomes `(take end_idx).drop start_idx`.
The `date_from`/`date_to` filters are read from `filters` nowhere, exactly
as in the source. -/
def list (st : Storage) (module : ModuleID) (filters : Filters) :
    List Obj × Nat × Bool :=
  let all_objects := dvalues (storeOf st (get_storage_key module))
  let offset := filters.offset.getD 0
  let limit := filters.limit.getD 50
  let total_count := all_objects.length
  let end_idx := min (offset + limit) total_count
  let objects_list := (all_objects.take end_idx).drop offset
  let is_last_page := decide (end_idx ≥ total_count)
  (objects_list, total_count, is_last_page)

/-- `EMSPCrud.create` (src/core/crud.py:119): `data.get("id") or uuid4()`
(a missing or empty — falsy — id is replaced by the fresh uuid), stamps
`id` and `last_updated` into the dict and stores it under `object_id`,
overwriting any existing object with that id.  The generated uuid and the
current time are explicit parameters. -/
def create (st : Storage) (module : ModuleID) (data : Obj)
    (freshUuid now : String) : Storage × Obj :=
  let key := get_storage_key module
  let store := storeOf st key
  let object_id :=
    match dget data "id" with
    | some v => if v = "" then freshUuid else v
    | none => freshUuid
  let data1 := dset data "id" object_id
  let data2 := dset data1 "last_updated" now
  let store1 := dset store object_id data2
  (dset st key store1, data2)

/-- `EMSPCrud.update` (src/core/crud.py:151): raises `NotFoundOCPIError`
when the id is absent; otherwise `existing_data.update(data)` (partial
merge), refreshes `last_updated`, stores the merged dict back. -/
def update (st : Storage) (module : ModuleID) (data : Obj) (id : String)
    (now : String) : Except OcpiError (Storage × Obj) :=
  let key := get_storage_key module
  let store := storeOf st key
  match dget store id with
  | none => Except.error OcpiError.NotFoundOCPIError
  | some existing_data =>
    let merged := dictUpdate existing_data data
    let merged2 := dset merged "last_updated" now
    Except.ok (dset st key (dset store id merged2), merged2)

/-- `EMSPCrud.delete` (src/core/crud.py:196): raises `NotFoundOCPIError`
when the id is absent, otherwise removes the entry. -/
def delete (st : Storage) (module : ModuleID) (id : String) :
    Except OcpiError Storage :=
  let key := get_storage_key module
  let store := storeOf st key
  match dget store id with
  | none => Except.error OcpiError.NotFoundOCPIError
  | some _ => Except.ok (dset st key (store.filter (fun p => ¬ p.1 = id)))

/-- `EMSPCrud.do` (src/core/crud.py:222): the non-CRUD action dispatcher.
`kwargs.get("token", "unknown")` and `kwargs.get("location")` become the
`token`/`location` options, `str(uuid.uuid4())` the `freshUuid` parameter;
`data` is accepted and ignored exactly as in the source.  The
`send_command` branch generates a command id but returns a dict without
it, and performs no payload validation; the `authorize_token` branch
returns `"ALLOWED"` unconditionally, consulting no token store. -/
def do_ (module : ModuleID) (action : Action) (data : Option Obj)
    (token location : Option String) (freshUuid : String) : JVal :=
  match action with
  | Action.get_client_token =>
      JVal.jstr ("mock_client_token_" ++ freshUuid.take 8)
  | Action.authorize_token =>
      JVal.jobj
        [("allowed", JVal.jstr "ALLOWED"),
         ("authorization_info", JVal.jobj
           [("allowed", JVal.jstr "ALLOWED"),
            ("token",
              match token with
              | some t => JVal.jstr t
              | none => JVal.jstr "unknown"),
            ("location",
              match location with
              | some l => JVal.jstr l
              | none => JVal.jnull)])]
  | Action.send_command =>
      let _command_id := freshUuid
      JVal.jobj
        [("result", JVal.jstr "ACCEPTED"),
         ("timeout", JVal.jnat 30),
         ("message", JVal.jstr "Command accepted for processing")]
  | Action.send_get_chargingprofile =>
      JVal.jobj
        [("result", JVal.jstr "ACCEPTED"),
         ("timeout", JVal.jnat 30),
         ("message",
           JVal.jstr ("Charging profile " ++ action.value ++ " accepted"))]
  | Action.send_delete_chargingprofile =>
      JVal.jobj
        [("result", JVal.jstr "ACCEPTED"),
         ("timeout", JVal.jnat 30),
         ("message",
           JVal.jstr ("Charging profile " ++ action.value ++ " accepted"))]
  | Action.send_update_charging_profile =>
      JVal.jobj
        [("result", JVal.jstr "ACCEPTED"),
         ("timeout", JVal.jnat 30),
         ("message",
           JVal.jstr ("Charging profile " ++ action.value ++ " accepted"))]
  | Action.other_action =>
      JVal.jobj [("result", JVal.jstr "UNKNOWN_ACTION")]

end EMSPCrud

namespace EMSPSettings

/-- `EMSPSettings.COMMAND_AWAIT_TIME` (src/core/config.py:83), seconds. -/
def COMMAND_AWAIT_TIME : Nat := 30

end EMSPSettings

/-- C1 (counterexample): the claim says an invalid command payload (empty
`location_id`, `evse_uid`, `connector_id`) is rejected with `InvalidCommand`
and that a valid payload's result contains a generated `commandId`.  On the
concrete invalid payload below, `EMSPCrud.do` returns the unconditional
`ACCEPTED` dict — no rejection ever happens — and the result has no
`commandId` field at all. -/
theorem C1_counterexample :
    EMSPCrud.do_ ModuleID.commands Action.send_command
        (some [("location_id", ""), ("evse_uid", ""), ("connector_id", "")])
        none none "3a1f0c2e-1111-2222-3333-444455556666"
      = JVal.jobj
          [("result", JVal.jstr "ACCEPTED"),
           ("timeout", JVal.jnat 30),
           ("message", JVal.jstr "Command accepted for processing")]
    ∧ (jget (EMSPCrud.do_ ModuleID.commands Action.send_command
        (some [("location_id", ""), ("evse_uid", ""), ("connector_id", "")])
        none none "3a1f0c2e-1111-2222-3333-444455556666") "commandId").isNone
      = true :=
  ⟨rfl, rfl⟩

/-- C1 (amended): `EMSPCrud.do` performs no payload validation on
`send_command`: for every module, payload, token, location and generated
uuid it returns the same dict `{result: ACCEPTED, timeout: 30, message:
...}`; a command id is generated internally but the result carries no
`commandId` field, and the `timeout` equals the configured
`COMMAND_AWAIT_TIME` of 30 seconds. -/
theorem C1_send_command_always_accepted (module : ModuleID)
    (data : Option Obj) (token location : Option String) (u : String) :
    EMSPCrud.do_ module Action.send_command data token location u
      = JVal.jobj
          [("result", JVal.jstr "ACCEPTED"),
           ("timeout", JVal.jnat 30),
           ("message", JVal.jstr "Command accepted for processing")]
    ∧ (jget (EMSPCrud.do_ module Action.send_command data token location u)
        "commandId").isNone = true
    ∧ jget (EMSPCrud.do_ module Action.send_command data token location u)
        "timeout" = some (JVal.jnat EMSPSettings.COMMAND_AWAIT_TIME) :=
  ⟨rfl, rfl, rfl⟩

/-- C2 (counterexample): the claim says an invalid token yields a decision
with allowed = NOT_ALLOWED and an empty reference.  The concrete token
below is in neither token list (`is_token_valid` is `false`), yet
`EMSPCrud.do` with `authorize_token` returns allowed = "ALLOWED", and no
`authorization_reference` field exists in the result. -/
theorem C2_counterexample :
    ClientAuthenticator.is_token_valid initialAuthState
        (some "definitely_not_a_registered_token") = false
    ∧ EMSPCrud.do_ ModuleID.tokens Action.authorize_token none
        (some "definitely_not_a_registered_token") none "u-1"
      = JVal.jobj
          [("allowed", JVal.jstr "ALLOWED"),
           ("authorization_info", JVal.jobj
             [("allowed", JVal.jstr "ALLOWED"),
              ("token", JVal.jstr "definitely_not_a_registered_token"),
              ("location", JVal.jnull)])]
    ∧ (jget (EMSPCrud.do_ ModuleID.tokens Action.authorize_token none
        (some "definitely_not_a_registered_token") none "u-1")
        "authorization_reference").isNone = true :=
  ⟨by decide, rfl, rfl⟩

/-- C2 (amended): the `authorize_token` action never consults the token
store: for every module, payload, token and location it returns a decision
whose `allowed` field is "ALLOWED", and no `authorization_reference` is
produced. -/
theorem C2_authorize_always_allowed (module : ModuleID) (data : Option Obj)
    (token location : Option String) (u : String) :
    jget (EMSPCrud.do_ module Action.authorize_token data token location u)
        "allowed" = some (JVal.jstr "ALLOWED")
    ∧ (jget (EMSPCrud.do_ module Action.authorize_token data token location u)
        "authorization_reference").isNone = true :=
  ⟨rfl, rfl⟩

/-- C3 (counterexample): the claim says an add that would put a token in
both classes is rejected with `Conflict`.  Adding the same string via
`add_token_a` and then `add_token_c` (starting from the hard-coded initial
state) succeeds — neither function can signal any error — and leaves the
token a member of both sets. -/
theorem C3_counterexample :
    ((ClientAuthenticator.add_token_c
        (ClientAuthenticator.add_token_a initialAuthState
          "shared_secret_token").1
        "shared_secret_token").1).tokensA.contains "shared_secret_token"
      = true
    ∧ ((ClientAuthenticator.add_token_c
        (ClientAuthenticator.add_token_a initialAuthState
          "shared_secret_token").1
        "shared_secret_token").1).tokensC.contains "shared_secret_token"
      = true := by
  decide

/-- C3 (amended): each add consults and modifies only its own class's set:
after `add_token_a s t` the token is in the A set and the C set is exactly
`s.tokensC` (and symmetrically for `add_token_c`), so a token already held
by the other class is silently accepted and dual membership is reachable;
no `Conflict` rejection exists. -/
theorem C3_add_no_cross_class_check (s : AuthState) (t : String) :
    ((ClientAuthenticator.add_token_a s t).1).tokensA.contains t = true
    ∧ ((ClientAuthenticator.add_token_a s t).1).tokensC = s.tokensC
    ∧ ((ClientAuthenticator.add_token_c s t).1).tokensC.contains t = true
    ∧ ((ClientAuthenticator.add_token_c s t).1).tokensA = s.tokensA := by
  refine ⟨?_, ?_, ?_, ?_⟩
  · by_cases h : t ∈ s.tokensA <;> simp [ClientAuthenticator.add_token_a, h]
  · by_cases h : t ∈ s.tokensA <;> simp [ClientAuthenticator.add_token_a, h]
  · by_cases h : t ∈ s.tokensC <;> simp [ClientAuthenticator.add_token_c, h]
  · by_cases h : t ∈ s.tokensC <;> simp [ClientAuthenticator.add_token_c, h]

/-- C6 (counterexample): the claim says add returns whether the token was
newly added.  Re-adding the pre-existing `"emsp_token_a_12345"` is a
state-preserving no-op while adding a fresh token changes the state, yet
both calls return the very same value (Python `None`, embedded as `Unit`),
so the caller cannot observe whether the token was newly added. -/
theorem C6_counterexample :
    (ClientAuthenticator.add_token_a initialAuthState
        "emsp_token_a_12345").1 = initialAuthState
    ∧ ¬ ((ClientAuthenticator.add_token_a initialAuthState
        "brand_new_token_a").1 = initialAuthState)
    ∧ (ClientAuthenticator.add_token_a initialAuthState
        "emsp_token_a_12345").2
      = (ClientAuthenticator.add_token_a initialAuthState
        "brand_new_token_a").2 := by
  decide

/-- C6 (amended): for both classes, add is idempotent — adding a token that
is already present leaves the set unchanged and raises no error — but the
operation returns `None` (unit), so whether the token was newly added is
not observable from the return value. -/
theorem C6_add_idempotent_unobservable (s : AuthState) (t : String) :
    ClientAuthenticator.add_token_a
        (ClientAuthenticator.add_token_a s t).1 t
      = ((ClientAuthenticator.add_token_a s t).1, ())
    ∧ (ClientAuthenticator.add_token_a s t).2 = ()
    ∧ ClientAuthenticator.add_token_c
        (ClientAuthenticator.add_token_c s t).1 t
      = ((ClientAuthenticator.add_token_c s t).1, ())
    ∧ (ClientAuthenticator.add_token_c s t).2 = () := by
  refine ⟨?_, rfl, ?_, rfl⟩
  · by_cases h : t ∈ s.tokensA <;> simp [ClientAuthenticator.add_token_a, h]
  · by_cases h : t ∈ s.tokensC <;> simp [ClientAuthenticator.add_token_c, h]

/-- C7 (counterexample): the claim says an empty token is always invalid.
`is_token_valid` special-cases only `None`: after `add_token_a` of the
empty string (which nothing prevents), validation of the empty token
returns `true`. -/
theorem C7_counterexample :
    ClientAuthenticator.is_token_valid
        ((ClientAuthenticator.add_token_a initialAuthState "").1) (some "")
      = true := by
  decide

/-- C7 (amended): `is_token_valid` is true exactly on membership in the
Token-A or Token-C list; a `None` token is always invalid, and the empty
token is invalid only while it is in neither list (no special
empty-string handling); after `add_token_a s t` the token validates and
classifies as TOKEN_A; `get_token_info` reports UNKNOWN exactly for
tokens in neither list and agrees with `is_token_valid` on validity —
both are total functions and never throw. -/
theorem C7_validate_classify (s : AuthState) (t : String) :
    (ClientAuthenticator.is_token_valid s (some t) = true ↔
        t ∈ s.tokensA ∨ t ∈ s.tokensC)
    ∧ ClientAuthenticator.is_token_valid s none = false
    ∧ ClientAuthenticator.is_token_valid
        ((ClientAuthenticator.add_token_a s t).1) (some t) = true
    ∧ (ClientAuthenticator.get_token_info
        ((ClientAuthenticator.add_token_a s t).1) t).tokenType
      = TokenClass.TOKEN_A
    ∧ ((ClientAuthenticator.get_token_info s t).tokenType
        = TokenClass.UNKNOWN ↔ ¬ (t ∈ s.tokensA ∨ t ∈ s.tokensC))
    ∧ (ClientAuthenticator.get_token_info s t).valid
      = ClientAuthenticator.is_token_valid s (some t) := by
  refine ⟨by simp [ClientAuthenticator.is_token_valid], rfl, ?_, ?_, ?_, ?_⟩
  · by_cases h : t ∈ s.tokensA <;>
      simp [ClientAuthenticator.add_token_a,
        ClientAuthenticator.is_token_valid, h]
  · by_cases h : t ∈ s.tokensA <;>
      simp [ClientAuthenticator.add_token_a,
        ClientAuthenticator.get_token_info, h]
  · by_cases hA : t ∈ s.tokensA <;>
      by_cases hC : t ∈ s.tokensC <;>
      simp [ClientAuthenticator.get_token_info, hA, hC]
  · by_cases hA : t ∈ s.tokensA <;>
      by_cases hC : t ∈ s.tokensC <;>
      simp [ClientAuthenticator.get_token_info,
        ClientAuthenticator.is_token_valid, hA, hC]

/-- C10: a token present in both the Token-A and the Token-C list is
classified TOKEN_A — `get_token_info` consults the A list first — and is
reported valid by `is_token_valid`. -/
theorem C10_dual_membership_classifies_token_a (s : AuthState) (t : String)
    (hA : t ∈ s.tokensA) (hC : t ∈ s.tokensC) :
    (ClientAuthenticator.get_token_info s t).tokenType = TokenClass.TOKEN_A
    ∧ ClientAuthenticator.is_token_valid s (some t) = true := by
  simp [ClientAuthenticator.get_token_info,
    ClientAuthenticator.is_token_valid, hA, hC]

/-- C10 (witness): evaluating `C10_dual_membership_classifies_token_a` on a
concrete state in which `"dual_class_token"` was added to both classes. -/
theorem C10_witness :
    (ClientAuthenticator.get_token_info
        ((ClientAuthenticator.add_token_c
          (ClientAuthenticator.add_token_a initialAuthState
            "dual_class_token").1 "dual_class_token").1)
        "dual_class_token").tokenType = TokenClass.TOKEN_A
    ∧ ClientAuthenticator.is_token_valid
        ((ClientAuthenticator.add_token_c
          (ClientAuthenticator.add_token_a initialAuthState
            "dual_class_token").1 "dual_class_token").1)
        (some "dual_class_token") = true :=
  C10_dual_membership_classifies_token_a
    ((ClientAuthenticator.add_token_c
      (ClientAuthenticator.add_token_a initialAuthState
        "dual_class_token").1 "dual_class_token").1)
    "dual_class_token" (by decide) (by decide)

/-- C4: `EMSPCrud.list` with non-negative integer offset and limit returns
at most `limit` items, defaults the limit to 50 when unspecified, reports
`total_count` as the number of stored objects of the module, and reports
`is_last_page` true exactly when `offset` plus the number of returned
items reaches `total_count`. -/
theorem C4_list_pagination (st : Storage) (m : ModuleID) (off lim : Nat)
    (df dt : Option String) :
    (EMSPCrud.list st m ⟨some off, some lim, df, dt⟩).1.length ≤ lim
    ∧ ((EMSPCrud.list st m ⟨some off, some lim, df, dt⟩).2.2 = true ↔
        off + (EMSPCrud.list st m ⟨some off, some lim, df, dt⟩).1.length
          ≥ (EMSPCrud.list st m ⟨some off, some lim, df, dt⟩).2.1)
    ∧ (EMSPCrud.list st m ⟨some off, some lim, df, dt⟩).2.1
      = (dvalues (storeOf st (get_storage_key m))).length
    ∧ EMSPCrud.list st m ⟨some off, none, df, dt⟩
      = EMSPCrud.list st m ⟨some off, some 50, df, dt⟩ := by
  refine ⟨?_, ?_, rfl, rfl⟩
  · simp [EMSPCrud.list]
    omega
  · simp [EMSPCrud.list]
    omega

/-- C5 (counterexample): the claim says items whose `last_updated` lies
outside a requested `date_from`/`date_to` window are excluded from the
page and from `total_count`.  Storing one object stamped
`2020-01-01T00:00:00Z` and listing with `date_from = 2023-01-01T00:00:00Z`
still returns that object and counts it: the date filters are ignored. -/
theorem C5_counterexample :
    EMSPCrud.list
        (EMSPCrud.create initialStorage ModuleID.locations
          [("id", "LOC_OLD")] "u1" "2020-01-01T00:00:00Z").1
        ModuleID.locations
        ⟨some 0, some 50, some "2023-01-01T00:00:00Z", none⟩
      = ([[("id", "LOC_OLD"), ("last_updated", "2020-01-01T00:00:00Z")]],
         1, true)
    ∧ "2020-01-01T00:00:00Z" < "2023-01-01T00:00:00Z" := by
  refine ⟨rfl, ?_⟩
  rw [String.lt_iff_toList_lt]
  decide

/-- C5 (amended): `EMSPCrud.list` never reads `date_from`/`date_to`: for
every storage, module and offset/limit, the result is identical to the
result with both date filters absent — no item is excluded and
`total_count` counts every stored object regardless of `last_updated`. -/
theorem C5_list_ignores_date_filters (st : Storage) (m : ModuleID)
    (off lim : Option Nat) (df dt : Option String) :
    EMSPCrud.list st m ⟨off, lim, df, dt⟩
      = EMSPCrud.list st m ⟨off, lim, none, none⟩ := rfl

/-- C8: `EMSPCrud.update` fails with `NotFoundOCPIError` when the id is
absent; when an object is stored under the id it succeeds, the merged
object is stored back, its `last_updated` equals the supplied timestamp,
and every field not present in the partial update dict (other than
`last_updated`) keeps its previous value. -/
theorem C8_update_partial_merge (st : Storage) (m : ModuleID) (data : Obj)
    (id now k : String) (existing : Obj) :
    (dget (storeOf st (get_storage_key m)) id = none →
        EMSPCrud.update st m data id now
          = Except.error OcpiError.NotFoundOCPIError)
    ∧ (dget (storeOf st (get_storage_key m)) id = some existing →
        ∃ st2 obj, EMSPCrud.update st m data id now = Except.ok (st2, obj)
          ∧ dget (storeOf st2 (get_storage_key m)) id = some obj
          ∧ dget obj "last_updated" = some now
          ∧ (dget data k = none → ¬ k = "last_updated" →
              dget obj k = dget existing k)) := by
  constructor
  · intro h
    simp [EMSPCrud.update, h]
  · intro h
    refine ⟨dset st (get_storage_key m)
        (dset (storeOf st (get_storage_key m)) id
          (dset (dictUpdate existing data) "last_updated" now)),
      dset (dictUpdate existing data) "last_updated" now, ?_, ?_, ?_, ?_⟩
    · simp [EMSPCrud.update, h]
    · simp [storeOf, dget_dset_same]
    · exact dget_dset_same _ _ _
    · intro hk hlu
      rw [dget_dset_ne _ _ _ _ (fun hh => hlu hh.symm)]
      exact dget_dictUpdate_none existing data k hk

/-- C8 (witness): evaluating `C8_update_partial_merge` on a concrete
session store — a partial update of the `status` field preserves the `id`
field and refreshes `last_updated` — and, at an empty storage, on a
missing id. -/
theorem C8_witness :
    (∃ st2 obj,
      EMSPCrud.update
          (EMSPCrud.create initialStorage ModuleID.sessions
            [("id", "S1"), ("status", "ACTIVE")] "u2" "t1").1
          ModuleID.sessions [("status", "COMPLETED")] "S1" "t2"
        = Except.ok (st2, obj)
      ∧ dget (storeOf st2 (get_storage_key ModuleID.sessions)) "S1"
          = some obj
      ∧ dget obj "last_updated" = some "t2"
      ∧ (dget [("status", "COMPLETED")] "id" = none →
          ¬ "id" = "last_updated" →
          dget obj "id"
            = dget [("id", "S1"), ("status", "ACTIVE"),
                ("last_updated", "t1")] "id"))
    ∧ EMSPCrud.update initialStorage ModuleID.sessions
        [("status", "COMPLETED")] "S1" "t2"
      = Except.error OcpiError.NotFoundOCPIError :=
  ⟨(C8_update_partial_merge
      (EMSPCrud.create initialStorage ModuleID.sessions
        [("id", "S1"), ("status", "ACTIVE")] "u2" "t1").1
      ModuleID.sessions [("status", "COMPLETED")] "S1" "t2" "id"
      [("id", "S1"), ("status", "ACTIVE"), ("last_updated", "t1")]).2
    (by rfl),
   (C8_update_partial_merge initialStorage ModuleID.sessions
      [("status", "COMPLETED")] "S1" "t2" "id" []).1 (by rfl)⟩

/-- C9: when `data` carries the (non-empty) id of an already-stored object
— `EMSPCrud.get` succeeds on it with the old object — `EMSPCrud.create`
still succeeds (its type is total: no conflict or duplicate-id error
exists) and silently replaces the stored object: a subsequent get returns
the newly supplied data, stamped with the given id and a fresh
`last_updated`, all other fields taken from `data`. -/
theorem C9_create_overwrites (st : Storage) (m : ModuleID) (data old : Obj)
    (freshUuid now id k : String)
    (hid : dget data "id" = some id) (hne : ¬ id = "")
    (hold : dget (storeOf st (get_storage_key m)) id = some old) :
    EMSPCrud.get st m id = Except.ok old
    ∧ EMSPCrud.get (EMSPCrud.create st m data freshUuid now).1 m id
      = Except.ok (EMSPCrud.create st m data freshUuid now).2
    ∧ dget (EMSPCrud.create st m data freshUuid now).2 "id" = some id
    ∧ dget (EMSPCrud.create st m data freshUuid now).2 "last_updated"
      = some now
    ∧ (¬ k = "id" → ¬ k = "last_updated" →
        dget (EMSPCrud.create st m data freshUuid now).2 k = dget data k) := by
  have hobj : EMSPCrud.create st m data freshUuid now
      = (dset st (get_storage_key m)
          (dset (storeOf st (get_storage_key m)) id
            (dset (dset data "id" id) "last_updated" now)),
         dset (dset data "id" id) "last_updated" now) := by
    simp [EMSPCrud.create, hid, hne]
  refine ⟨?_, ?_, ?_, ?_, ?_⟩
  · simp [EMSPCrud.get, hold]
  · rw [hobj]
    simp [EMSPCrud.get, storeOf, dget_dset_same]
  · rw [hobj]
    have h1 : ¬ ("last_updated" : String) = "id" := by decide
    rw [dget_dset_ne _ _ _ _ h1]
    exact dget_dset_same _ _ _
  · rw [hobj]
    exact dget_dset_same _ _ _
  · intro hk hlu
    rw [hobj]
    rw [dget_dset_ne _ _ _ _ (fun hh => hlu hh.symm)]
    rw [dget_dset_ne _ _ _ _ (fun hh => hk hh.symm)]

/-- C9 (witness): evaluating `C9_create_overwrites` on a concrete location
store: re-creating id `"L1"` with new data replaces the old object and a
get afterwards returns the new one. -/
theorem C9_witness :
    EMSPCrud.get
        (EMSPCrud.create initialStorage ModuleID.locations
          [("id", "L1"), ("name", "Old")] "u3" "t1").1
        ModuleID.locations "L1"
      = Except.ok [("id", "L1"), ("name", "Old"), ("last_updated", "t1")]
    ∧ EMSPCrud.get
        (EMSPCrud.create
          (EMSPCrud.create initialStorage ModuleID.locations
            [("id", "L1"), ("name", "Old")] "u3" "t1").1
          ModuleID.locations [("id", "L1"), ("name", "New")] "u4" "t2").1
        ModuleID.locations "L1"
      = Except.ok
          (EMSPCrud.create
            (EMSPCrud.create initialStorage ModuleID.locations
              [("id", "L1"), ("name", "Old")] "u3" "t1").1
            ModuleID.locations [("id", "L1"), ("name", "New")] "u4" "t2").2
    ∧ dget (EMSPCrud.create
          (EMSPCrud.create initialStorage ModuleID.locations
            [("id", "L1"), ("name", "Old")] "u3" "t1").1
          ModuleID.locations [("id", "L1"), ("name", "New")] "u4" "t2").2
        "id" = some "L1"
    ∧ dget (EMSPCrud.create
          (EMSPCrud.create initialStorage ModuleID.locations
            [("id", "L1"), ("name", "Old")] "u3" "t1").1
          ModuleID.locations [("id", "L1"), ("name", "New")] "u4" "t2").2
        "last_updated" = some "t2"
    ∧ (¬ "name" = "id" → ¬ "name" = "last_updated" →
        dget (EMSPCrud.create
            (EMSPCrud.create initialStorage ModuleID.locations
              [("id", "L1"), ("name", "Old")] "u3" "t1").1
            ModuleID.locations [("id", "L1"), ("name", "New")] "u4" "t2").2
          "name" = dget [("id", "L1"), ("name", "New")] "name") :=
  C9_create_overwrites
    (EMSPCrud.create initialStorage ModuleID.locations
      [("id", "L1"), ("name", "Old")] "u3" "t1").1
    ModuleID.locations [("id", "L1"), ("name", "New")]
    [("id", "L1"), ("name", "Old"), ("last_updated", "t1")]
    "u4" "t2" "L1" "name" (by rfl) (by decide) (by rfl)

end OCPIEmsp
